import Mathlib

set_option maxRecDepth 100000
set_option maxHeartbeats 1000000

/-!
Shallow embedding of the transcript pipeline of ykai16/context-cartographer
(src/bin/contextmap.py and src/bin/cartographer.py).

Strings are modelled as Lean `String`s with the heavy lifting on `List Char`
(`String.data`), matching Python's per-character semantics for the ASCII
processing the pipeline performs.  The external summarization engine and the
file system are effects; they are modelled as explicit inputs (an engine
outcome value, a read result value, a directory listing).
-/

/-- Character class of the first alternative of the ANSI regex of contextmap.py
line 18 / cartographer.py line 19: the final byte of a two-character escape,
code points 0x40-0x5A or 0x5C-0x5F. -/
def isTwoCharFinal (c : Char) : Bool :=
  (decide (0x40 ≤ c.toNat) && decide (c.toNat ≤ 0x5A)) ||
  (decide (0x5C ≤ c.toNat) && decide (c.toNat ≤ 0x5F))

/-- CSI parameter bytes of the ANSI regex: code points 0x30-0x3F. -/
def isCsiParam (c : Char) : Bool :=
  decide (0x30 ≤ c.toNat) && decide (c.toNat ≤ 0x3F)

/-- CSI intermediate bytes of the ANSI regex: code points 0x20-0x2F. -/
def isCsiInter (c : Char) : Bool :=
  decide (0x20 ≤ c.toNat) && decide (c.toNat ≤ 0x2F)

/-- CSI final bytes of the ANSI regex: code points 0x40-0x7E. -/
def isCsiFinal (c : Char) : Bool :=
  decide (0x40 ≤ c.toNat) && decide (c.toNat ≤ 0x7E)

/-- Match the CSI branch of the ANSI regex against the characters following the
escape introducer and an open bracket: greedily consume parameter bytes, then
intermediate bytes, then require one final byte.  The three classes are
disjoint, so greedy matching coincides with the regex engine's backtracking
search.  Returns the matched characters and the remainder. -/
def csiMatch (l : List Char) : Option (List Char × List Char) :=
  match (l.dropWhile isCsiParam).dropWhile isCsiInter with
  | [] => none
  | d :: r2 =>
    if isCsiFinal d then
      some (l.takeWhile isCsiParam ++ (l.dropWhile isCsiParam).takeWhile isCsiInter ++ [d], r2)
    else none

/-- Match the part of the ANSI regex after the `\x1B`: either a single
two-character final byte, or `[` followed by a CSI body. -/
def escMatch : List Char → Option (List Char × List Char)
  | [] => none
  | c :: rest =>
    if isTwoCharFinal c then some ([c], rest)
    else if c = '[' then
      match csiMatch rest with
      | some (m, r) => some ('[' :: m, r)
      | none => none
    else none

/-- One pass of `ansi_escape.sub('', text)` (contextmap.py line 19,
cartographer.py line 20): scan left to right; at each `\x1B` try to match the
rest of the escape sequence; on a match drop the whole sequence and continue
after it, otherwise keep the character.  Characters other than `\x1B` can
never start a match.  The fuel argument (instantiated with the input length,
which every step strictly exceeds the consumption of) makes the recursion
structural; fuel `0` returns the remainder unchanged. -/
def sub1Fuel : Nat → List Char → List Char
  | 0, l => l
  | _ + 1, [] => []
  | fuel + 1, c :: rest =>
    if c = '\x1B' then
      match escMatch rest with
      | some (_, r) => sub1Fuel fuel r
      | none => c :: sub1Fuel fuel rest
    else c :: sub1Fuel fuel rest

/-- Character class of the second substitution in contextmap.py line 23:
control characters 0x00-0x09, 0x0B, 0x0C, 0x0E-0x1F and 0x7F.  Newline (0x0A)
and carriage return (0x0D) are excluded from the class and therefore kept. -/
def isCtrlStrip (c : Char) : Bool :=
  decide (c.toNat ≤ 0x09) || decide (c.toNat = 0x0B) || decide (c.toNat = 0x0C) ||
  (decide (0x0E ≤ c.toNat) && decide (c.toNat ≤ 0x1F)) || decide (c.toNat = 0x7F)

/-- `clean_ansi` of contextmap.py lines 15-24: remove ANSI escape sequences,
then strip the remaining control characters (keeping newlines). -/
def cleanList (l : List Char) : List Char :=
  (sub1Fuel l.length l).filter (fun c => ! isCtrlStrip c)

/-- `clean_ansi` of contextmap.py (regex substitution plus control-character
strip), lifted to `String`. -/
def clean_ansi (s : String) : String := ⟨cleanList s.data⟩

/-- `clean_ansi` of cartographer.py lines 17-20: only the regex substitution,
with no control-character strip. -/
def cartCleanList (l : List Char) : List Char := sub1Fuel l.length l

/-- `clean_ansi` of cartographer.py, lifted to `String`. -/
def cart_clean_ansi (s : String) : String := ⟨cartCleanList s.data⟩

example : clean_ansi ("\x1b[32mhi\x1b[0m\nworld") = "hi\nworld" := by decide
example : cart_clean_ansi ("\x1b") = "\x1b" := by decide
example : clean_ansi ("\x1b") = "" := by decide

/-- Whitespace stripped by Python's `str.strip()`, modelled over the ASCII
whitespace characters (space, tab, newline, vertical tab, form feed,
carriage return); the pipeline's lines are ASCII terminal output, and every
claim below is settled on ASCII inputs. -/
def isPySpace (c : Char) : Bool :=
  (c == ' ') || (c == '\t') || (c == '\n') || (c == '\x0b') || (c == '\x0c') || (c == '\r')

/-- Python `line.strip()`: drop leading and trailing whitespace. -/
def pyStrip (l : List Char) : List Char :=
  ((l.dropWhile isPySpace).reverse.dropWhile isPySpace).reverse

/-- Python `str.strip()` lifted to `String`. -/
def pyStripS (s : String) : String := ⟨pyStrip s.data⟩

/-- First interactive-prompt marker of contextmap.py line 41. -/
def promptMark1 : List Char := ("> ").data

/-- Second interactive-prompt marker of contextmap.py line 41. -/
def promptMark2 : List Char := ("❯ ").data

/-- Boundary tag prepended to a detected user-prompt line
(contextmap.py line 43), including the separating newlines. -/
def stepTag : List Char := ("\n--- USER STEP ---\n").data

/-- Python's substring test `pat in l` (contiguous substring). -/
def hasSub (pat : List Char) : List Char → Bool
  | [] => pat.isEmpty
  | c :: rest => pat.isPrefixOf (c :: rest) || hasSub pat rest

/-- Low-signal progress patterns of contextmap.py line 47. -/
def noisePat1 : List Char := ("Resolving...").data

/-- Second low-signal progress pattern of contextmap.py line 47. -/
def noisePat2 : List Char := ("Fetching...").data

/-- Third low-signal progress pattern of contextmap.py line 47. -/
def noisePat3 : List Char := ("Downloading...").data

/-- Prompt-boundary test of contextmap.py line 41: the stripped line starts
with one of the two prompt markers. -/
def isPromptLine (line : List Char) : Bool :=
  promptMark1.isPrefixOf (pyStrip line) || promptMark2.isPrefixOf (pyStrip line)

/-- Noise test of contextmap.py line 47: the raw line contains one of the
three progress patterns. -/
def isNoiseLine (line : List Char) : Bool :=
  hasSub noisePat1 line || hasSub noisePat2 line || hasSub noisePat3 line

/-- Truncation marker of contextmap.py line 52 for a line of length `n`:
the formatted insert between the kept head and tail. -/
def truncMarker (n : Nat) : List Char :=
  (" ... [").data ++ (Nat.repr (n - 200)).data ++ (" chars truncated] ... ").data

/-- Long-line truncation of contextmap.py line 52: first 100 characters,
marker, last 100 characters. -/
def truncate300 (line : List Char) : List Char :=
  line.take 100 ++ truncMarker line.length ++ line.drop (line.length - 100)

/-- Loop body of `smart_compress_transcript` (contextmap.py lines 37-54) for
one line: tag prompt-boundary lines (first), drop noise lines (second),
truncate lines longer than 300 characters (third), keep the rest.  `none`
means the line contributes nothing to the compressed output. -/
def processLineL (line : List Char) : Option (List Char) :=
  if isPromptLine line then some (stepTag ++ pyStrip line)
  else if isNoiseLine line then none
  else if 300 < line.length then some (truncate300 line)
  else some line

/-- Python `text.split('\n')`: split at every newline, keeping empty pieces. -/
def splitOnNl : List Char → List (List Char)
  | [] => [[]]
  | c :: rest =>
    if c = '\n' then [] :: splitOnNl rest
    else
      match splitOnNl rest with
      | h :: t => (c :: h) :: t
      | [] => [[c]]

/-- `smart_compress_transcript` of contextmap.py lines 26-63: sanitize, split
into lines, process each line, rejoin with newlines. -/
def smartCompressList (l : List Char) : List Char :=
  List.intercalate (['\n']) ((splitOnNl (cleanList l)).filterMap processLineL)

/-- `smart_compress_transcript` lifted to `String`. -/
def smart_compress_transcript (s : String) : String := ⟨smartCompressList s.data⟩

/-- Truncation marker of cartographer.py line 38. -/
def cartMarker : List Char := ("... [Output Truncated] ...").data

/-- Per-line compression of cartographer.py lines 36-40: truncate lines longer
than 500 characters to head 200, marker, tail 200; keep all other lines. -/
def cartProcessLine (line : List Char) : List Char :=
  if 500 < line.length then line.take 200 ++ cartMarker ++ line.drop (line.length - 200)
  else line

/-- Compression step of cartographer.py `parse_transcript` lines 30-42:
sanitize (regex only), split into lines, truncate long lines, rejoin. -/
def cartCompressList (l : List Char) : List Char :=
  List.intercalate (['\n']) ((splitOnNl (cartCleanList l)).map cartProcessLine)

/-- Cartographer compression lifted to `String`. -/
def cart_compress (s : String) : String := ⟨cartCompressList s.data⟩

example : smart_compress_transcript ("\x1b[32m> fix login bug\x1b[0m\nResolving...\nResolving...\nDone.")
    = "\n--- USER STEP ---\n> fix login bug\nDone." := by decide
example : processLineL (("> Resolving... x").data) = some (stepTag ++ ("> Resolving... x").data) := by decide
example : smart_compress_transcript ("") = "" := by decide
example : cart_compress ("a\nb") = "a\nb" := by decide

/-- Python slice `s[-budget:]` for a positive budget: the trailing window of at
most `budget` characters (the whole string when it is shorter). -/
def tailWindow (budget : Nat) (s : String) : String :=
  ⟨s.data.drop (s.data.length - budget)⟩

/-- User-message block built by `generate_summary` (contextmap.py line 365):
the previous report verbatim and the tail-windowed current transcript under
two labeled section headers. -/
def prompt_content (transcript old_summary : String) : String :=
  "=== PREVIOUS SESSION HTML ===\n" ++ old_summary ++
    "\n\n=== CURRENT SESSION TRANSCRIPT ===\n" ++ tailWindow 80000 transcript

/-- Outcome of the delegated engine invocation (the `claude` subprocess of
contextmap.py lines 391-395): either the process completed with an exit code,
stdout and stderr, or the invocation raised an exception with a message. -/
inductive EngineOutcome where
  | exited (code : Nat) (stdout stderr : String)
  | raised (msg : String)
deriving DecidableEq

/-- `generate_summary` of contextmap.py lines 78-407, with the subprocess
modelled as a function from the constructed user prompt to an
`EngineOutcome`: a non-zero exit yields the CLI-error string (line 398), an
exception yields the execution-error string (line 403), success yields the
process stdout (line 400).  Every branch returns a `String`; the broad
`except Exception` of line 402 means no exception escapes to the caller. -/
def generate_summary (transcript old_summary : String)
    (engine : String → EngineOutcome) : String :=
  match engine (prompt_content transcript old_summary) with
  | .exited code stdout stderr =>
    if code ≠ 0 then "❌ Claude CLI Error: " ++ stderr else stdout
  | .raised msg => "❌ Execution Error: " ++ msg

/-- User message built by cartographer.py line 65: the transcript windowed to
its last 100000 characters under a fixed instruction. -/
def cart_user_prompt (transcript : String) : String :=
  "Here is the session transcript. Analyze it:\n\n" ++ tailWindow 100000 transcript

/-- `generate_summary` of cartographer.py lines 102-116 (the OpenAI-compatible
path), with the API call modelled as a function from the user message to an
`Except`: a raised transport error is caught (line 115) and converted to the
diagnostic string of line 116. -/
def cart_generate_summary (transcript : String)
    (api : String → Except String String) : String :=
  match api (cart_user_prompt transcript) with
  | .ok content => content
  | .error e => "❌ Error generating summary: " ++ e

/-- Result of reading the session log file: the file is missing, its text was
read, or opening/reading it failed with an error message (the stat size of
the unreadable file is kept, since cartographer.py line 140 uses the size
without reading the text). -/
inductive ReadResult where
  | missing
  | content (s : String)
  | failure (e : String) (size : Nat)
deriving DecidableEq

/-- `parse_transcript` of contextmap.py lines 65-76: a missing file yields the
empty string (line 68); a readable file yields the compressed transcript
(line 74); a read failure is caught and yields the bracketed diagnostic of
line 76. -/
def parse_transcript : ReadResult → String
  | .missing => ""
  | .content s => smart_compress_transcript s
  | .failure e _ => "[Error reading log: " ++ e ++ "]"

/-- `parse_transcript` of cartographer.py lines 22-28: a missing file yields
the empty string; a readable file yields the compressed transcript; there is
no exception handler, so a read failure propagates (modelled as `.error`). -/
def cart_parse_transcript : ReadResult → Except String String
  | .missing => .ok ""
  | .content s => .ok (cart_compress s)
  | .failure e _ => .error e

/-- Outcome of one `main` run of contextmap.py: an early no-op exit with
nothing written, or the output file written with the given report body. -/
inductive MainResult where
  | noop
  | wrote (report : String)
deriving DecidableEq

/-- `main` of contextmap.py lines 439-488 after housekeeping: parse the log;
if the stripped transcript is empty, warn and return without writing
(lines 467-469); otherwise write the generated summary (lines 481-487).
`prev` is the content of the previous report file when it exists and is
readable (lines 472-478). -/
def cm_main (log : ReadResult) (prev : Option String)
    (engine : String → EngineOutcome) : MainResult :=
  let transcript := parse_transcript log
  if pyStripS transcript = "" then .noop
  else .wrote (generate_summary transcript (prev.getD "") engine)

/-- Placeholder report of cartographer.py lines 134-140, written when no API
key and no AWS credentials are found; `size` models `os.path.getsize`. -/
def dummy_report (logFile : String) (size : Nat) : String :=
  "# 🗺️ Session Evolution\n> **⚠️ API Key Missing**: Please export OPENAI_API_KEY to enable AI analysis.\n\n# 📝 Raw Log Stats\n- Log File: " ++
    logFile ++ "\n- Size: " ++ Nat.repr size ++ " bytes\n"

/-- Outcome of one `main` run of cartographer.py: an early no-op exit, the
output file written, or an uncaught exception crashing the run. -/
inductive CartMainResult where
  | noop
  | wrote (report : String)
  | crashed (e : String)
deriving DecidableEq

/-- `main` of cartographer.py lines 118-161: without credentials (line 131)
the placeholder report is written immediately, using `os.path.getsize` on the
log file — which raises if the file is missing (line 140).  With credentials
the transcript is parsed (an unreadable file raises, since
`cart_parse_transcript` has no handler); an empty stripped transcript is a
no-op (lines 150-152); otherwise the summary is written (lines 154-159). -/
def cart_main (creds : Bool) (logName : String) (log : ReadResult)
    (api : String → Except String String) : CartMainResult :=
  if creds then
    match cart_parse_transcript log with
    | .error e => .crashed e
    | .ok transcript =>
      if pyStripS transcript = "" then .noop
      else .wrote (cart_generate_summary transcript api)
  else
    match log with
    | .missing => .crashed "FileNotFoundError"
    | .content s => .wrote (dummy_report logName s.length)
    | .failure _ size => .wrote (dummy_report logName size)

example : cm_main .missing none (fun _ => .raised "x") = .noop := by decide
example : cart_main false "a.log" (.content "") (fun _ => .error "") =
    .wrote (dummy_report "a.log" 0) := by decide
example : generate_summary "t" "" (fun _ => .exited 2 "out" "boom") =
    "❌ Claude CLI Error: boom" := by decide

/-- Modelled from the spec: one unit of narrative in the cumulative report
(spec section 3, IterationStep) — title, intent, expected outcome, actual
result, status and artifact names.  The extraction itself is delegated to the
external engine (contextmap.py lines 306-331 only instruct it), so the data
model is taken from the spec's words; status is kept as the literal status
string from the set named by the spec. -/
structure IterationStep where
  title : String
  intent : String
  expected : String
  result : String
  status : String
  artifacts : List String
deriving DecidableEq

/-- Modelled from the spec: an archived step retains only title, status and a
one-line result (spec sections 3 and 4.4). -/
structure ArchivedStep where
  title : String
  status : String
  resultLine : String
deriving DecidableEq

/-- Modelled from the spec: the cumulative report as the compaction policy
sees it — the ordered full-detail steps (oldest first) and the single archive
entry, `none` when no steps have been archived yet (spec section 3,
CumulativeReport). -/
structure CumulativeReport where
  steps : List IterationStep
  archive : Option (List ArchivedStep)
deriving DecidableEq

/-- Modelled from the spec: collapsing a step for the archive keeps the title
and status and the result truncated to its first line capped at `cap`
characters (spec section 4.4). -/
def summarizeStep (cap : Nat) (s : IterationStep) : ArchivedStep :=
  { title := s.title, status := s.status,
    resultLine := ⟨(s.result.data.takeWhile (fun c => c ≠ '\n')).take cap⟩ }

/-- Modelled from the spec: the compaction policy (spec section 4.4 and the
anti-bloat rules of contextmap.py lines 306-318, which the repository only
states as instructions to the external engine).  A report with at most `K`
full-detail steps is unchanged; otherwise the oldest `count - K` steps are
removed from full detail and their summaries appended to the single archive
entry, which is created if absent.  Archived entries are never re-expanded. -/
def compactReport (K cap : Nat) (r : CumulativeReport) : CumulativeReport :=
  if r.steps.length ≤ K then r
  else
    { steps := r.steps.drop (r.steps.length - K),
      archive := some ((r.archive.getD []) ++
        (r.steps.take (r.steps.length - K)).map (summarizeStep cap)) }

/-- Modelled from the spec: merging one new session appends its steps after
the previous report's steps and applies compaction (spec sections 4.3, 4.4;
merge instructions of contextmap.py lines 320-334). -/
def mergeSession (K cap : Nat) (prev : CumulativeReport)
    (newSteps : List IterationStep) : CumulativeReport :=
  compactReport K cap { steps := prev.steps ++ newSteps, archive := prev.archive }

/-- Number of collapsed steps held by the report's archive entry. -/
def archiveSize (r : CumulativeReport) : Nat := (r.archive.getD []).length

/-- Directory entry as `cleanup_old_logs` sees it: a file name and its
modification time in seconds (`os.path.getmtime`, modelled as an integer). -/
structure FsEntry where
  name : String
  mtime : Int
deriving DecidableEq

/-- Python `f.endswith(".log")` of contextmap.py line 422. -/
def endsWithLog (name : String) : Bool := (".log").data.isSuffixOf name.data

/-- Age cutoff of contextmap.py line 418: now minus `days` worth of seconds. -/
def logCutoff (now days : Int) : Int := now - days * 86400

/-- Deletion test of contextmap.py lines 422-426: the entry's name ends in
".log" and its modification time is strictly older than the cutoff. -/
def isStaleLog (cutoff : Int) (e : FsEntry) : Bool :=
  endsWithLog e.name && decide (e.mtime < cutoff)

/-- `cleanup_old_logs` of contextmap.py lines 409-437, as the transform on the
directory listing: the entries that remain after the loop.  Per-file OSError
and any other failure are swallowed by the handlers of lines 429-430 and
435-437, so the function never raises; a swallowed per-file error only leaves
an otherwise-deletable file in place, never deletes a non-matching one. -/
def cleanup_old_logs (now days : Int) (entries : List FsEntry) : List FsEntry :=
  entries.filter (fun e => ! isStaleLog (logCutoff now days) e)

/-- The directory entries removed by `cleanup_old_logs` (complement of the
kept entries). -/
def cleanupDeleted (now days : Int) (entries : List FsEntry) : List FsEntry :=
  entries.filter (isStaleLog (logCutoff now days))

example : cleanup_old_logs 1000000 1 ([⟨"report.html", 0⟩, ⟨"a.log", 0⟩, ⟨"b.log", 999999⟩])
    = [⟨"report.html", 0⟩, ⟨"b.log", 999999⟩] := by decide
example : compactReport 2 5 ⟨[], none⟩ = ⟨[], none⟩ := by decide

/-- Decomposition of a successful CSI match: the input is the matched
characters followed by the remainder, and no newline is consumed. -/
theorem csiMatch_eq {l m r : List Char} (h : csiMatch l = some (m, r)) :
    l = m ++ r ∧ '\n' ∉ m := by
  unfold csiMatch at h
  cases h2 : (l.dropWhile isCsiParam).dropWhile isCsiInter with
  | nil => rw [h2] at h; exact absurd h (by simp)
  | cons d r2 =>
    rw [h2] at h
    by_cases hf : isCsiFinal d
    · simp only [hf, if_true, Option.some.injEq, Prod.mk.injEq] at h
      obtain ⟨hm, hr⟩ := h
      have e1 : l.takeWhile isCsiParam ++ l.dropWhile isCsiParam = l :=
        List.takeWhile_append_dropWhile isCsiParam l
      have e2 : (l.dropWhile isCsiParam).takeWhile isCsiInter ++ (d :: r2)
          = l.dropWhile isCsiParam := by
        rw [← h2]
        exact List.takeWhile_append_dropWhile isCsiInter (l.dropWhile isCsiParam)
      constructor
      · rw [← hm, ← hr]
        have e3 : l = l.takeWhile isCsiParam ++
            ((l.dropWhile isCsiParam).takeWhile isCsiInter ++ (d :: r2)) := by
          rw [e2, e1]
        conv_lhs => rw [e3]
        simp [List.append_assoc]
      · rw [← hm]
        intro hmem
        simp only [List.append_assoc, List.mem_append, List.mem_singleton] at hmem
        rcases hmem with hp | hi | hd
        · have := List.mem_takeWhile_imp hp
          simp [isCsiParam] at this
        · have := List.mem_takeWhile_imp hi
          simp [isCsiInter] at this
        · subst hd; simp [isCsiFinal] at hf
    · simp [hf] at h

/-- Decomposition of a successful escape-sequence match: the input is the
matched characters followed by the remainder, and no newline is consumed. -/
theorem escMatch_eq {l m r : List Char} (h : escMatch l = some (m, r)) :
    l = m ++ r ∧ '\n' ∉ m := by
  cases l with
  | nil => exact absurd h (by simp [escMatch])
  | cons c rest =>
    by_cases h1 : isTwoCharFinal c
    · simp only [escMatch, h1, if_true, Option.some.injEq, Prod.mk.injEq] at h
      obtain ⟨hm, hr⟩ := h
      rw [← hm, ← hr]
      refine ⟨rfl, ?_⟩
      intro hmem
      rw [List.mem_singleton] at hmem
      rw [← hmem] at h1
      exact absurd h1 (by decide)
    · by_cases h2 : c = '['
      · subst h2
        rw [escMatch] at h
        rw [if_neg (by decide : ¬ isTwoCharFinal '[' = true), if_pos rfl] at h
        cases h3 : csiMatch rest with
        | none => rw [h3] at h; exact absurd h (by simp)
        | some pr =>
          obtain ⟨m2, r2⟩ := pr
          rw [h3] at h
          simp only [Option.some.injEq, Prod.mk.injEq] at h
          obtain ⟨hm, hr⟩ := h
          obtain ⟨he, hn⟩ := csiMatch_eq h3
          rw [← hm, ← hr]
          constructor
          · rw [he]; rfl
          · intro hmem
            rcases List.mem_cons.mp hmem with hc | hm2
            · exact absurd hc.symm (by decide)
            · exact hn hm2
      · rw [escMatch] at h
        rw [if_neg h1, if_neg h2] at h
        exact absurd h (by simp)

/-- The regex substitution removes no newline: every character of a matched
escape sequence is outside the newline code point. -/
theorem sub1Fuel_count (fuel : Nat) (l : List Char) :
    (sub1Fuel fuel l).count '\n' = l.count '\n' := by
  induction fuel generalizing l with
  | zero => rfl
  | succ n ih =>
    cases l with
    | nil => rfl
    | cons c rest =>
      by_cases hc : c = '\x1B'
      · subst hc
        rw [sub1Fuel, if_pos rfl]
        cases he : escMatch rest with
        | none => simp [List.count_cons, ih]
        | some pr =>
          obtain ⟨m, r⟩ := pr
          obtain ⟨heq, hnl⟩ := escMatch_eq he
          have h0 : m.count '\n' = 0 := List.count_eq_zero.mpr hnl
          rw [ih, heq]
          simp [List.count_cons, List.count_append, h0]
      · rw [sub1Fuel, if_neg hc]
        simp [List.count_cons, ih]

/-- The regex substitution only deletes characters: its output is a sublist
(order-preserving subsequence) of its input. -/
theorem sub1Fuel_sublist (fuel : Nat) (l : List Char) :
    List.Sublist (sub1Fuel fuel l) l := by
  induction fuel generalizing l with
  | zero => exact List.Sublist.refl l
  | succ n ih =>
    cases l with
    | nil => exact List.Sublist.refl []
    | cons c rest =>
      by_cases hc : c = '\x1B'
      · subst hc
        rw [sub1Fuel, if_pos rfl]
        cases he : escMatch rest with
        | none => exact (ih rest).cons₂ '\x1B'
        | some pr =>
          obtain ⟨m, r⟩ := pr
          obtain ⟨heq, _⟩ := escMatch_eq he
          have h1 : List.Sublist r rest := heq ▸ List.sublist_append_right m r
          exact ((ih r).trans h1).cons '\x1B'
      · rw [sub1Fuel, if_neg hc]
        exact (ih rest).cons₂ c

/-- C1: for every invocation of the merge step in which the delegated engine
call fails — the `claude` subprocess exits non-zero, or the invocation raises
(transport error, missing binary, API exception) — the merge step returns
normally with a diagnostic error string as the report body: contextmap.py
lines 397-403 and the caught API path of cartographer.py lines 105-116.
`generate_summary` and `cart_generate_summary` are total functions of the
engine outcome, so no failure escapes to the caller. -/
theorem generate_summary_fail_soft :
    ∀ (transcript old : String) (engine : String → EngineOutcome)
      (code : Nat) (stdout stderr msg : String)
      (api : String → Except String String),
      (engine (prompt_content transcript old) = .exited code stdout stderr →
        code ≠ 0 →
        generate_summary transcript old engine = "❌ Claude CLI Error: " ++ stderr) ∧
      (engine (prompt_content transcript old) = .raised msg →
        generate_summary transcript old engine = "❌ Execution Error: " ++ msg) ∧
      (api (cart_user_prompt transcript) = .error msg →
        cart_generate_summary transcript api
          = "❌ Error generating summary: " ++ msg) := by
  intro transcript old engine code stdout stderr msg api
  refine ⟨?_, ?_, ?_⟩
  · intro he hc
    simp [generate_summary, he, hc]
  · intro he
    simp [generate_summary, he]
  · intro ha
    simp [cart_generate_summary, ha]

/-- Engine stub for witnesses: the subprocess exits with code 1. -/
def engineFail : String → EngineOutcome := fun _ => .exited 1 "" "boom"

/-- Witness for the fail-soft theorem at a concrete failing engine. -/
theorem generate_summary_fail_soft_witness :
    engineFail (prompt_content "t" "") = .exited 1 "" "boom" ∧ (1 : Nat) ≠ 0 ∧
      generate_summary "t" "" engineFail = "❌ Claude CLI Error: " ++ "boom" :=
  ⟨rfl, by decide,
    (generate_summary_fail_soft "t" "" engineFail 1 "" "boom" ""
      (fun _ => .error "")).1 rfl (by decide)⟩

/-- C3: the compressed transcript incorporated into the merge request is
tail-windowed to the 80000-character budget (contextmap.py line 365), so for
every raw input the transcript section the merge step hands to the engine has
length at most the budget. -/
theorem merge_request_transcript_bounded :
    ∀ (raw old : String),
      prompt_content (smart_compress_transcript raw) old
        = "=== PREVIOUS SESSION HTML ===\n" ++ old ++
            "\n\n=== CURRENT SESSION TRANSCRIPT ===\n" ++
            tailWindow 80000 (smart_compress_transcript raw) ∧
      (tailWindow 80000 (smart_compress_transcript raw)).length ≤ 80000 := by
  intro raw old
  refine ⟨rfl, ?_⟩
  show ((smart_compress_transcript raw).data.drop _).length ≤ 80000
  rw [List.length_drop]
  omega

/-- C4 counterexample: cartographer.py's `clean_ansi` applies only the regex
substitution, so a dangling escape introducer with nothing after it survives
sanitization unchanged, refuting the claim for that draft of the Sanitizer. -/
theorem dangling_escape_survives :
    cart_clean_ansi ("\x1b") = "\x1b" ∧ '\x1B' ∈ (cart_clean_ansi ("\x1b")).data :=
  ⟨by decide, by decide⟩

/-- C4 (amended): contextmap.py's `clean_ansi` leaves no escape-introducer
byte (its second substitution strips every remaining 0x1B), preserves the
number of newlines, and only deletes characters (its output is an
order-preserving subsequence of the input, so printable content outside the
removed sequences is neither removed nor reordered); cartographer.py's
regex-only `clean_ansi` also preserves newlines and order but can leave a
dangling 0x1B. -/
theorem sanitizer_newlines_and_escapes :
    ∀ (s : String),
      '\x1B' ∉ (clean_ansi s).data ∧
      (clean_ansi s).data.count '\n' = s.data.count '\n' ∧
      List.Sublist (clean_ansi s).data s.data ∧
      (cart_clean_ansi s).data.count '\n' = s.data.count '\n' ∧
      List.Sublist (cart_clean_ansi s).data s.data := by
  intro s
  refine ⟨?_, ?_, ?_, ?_, ?_⟩
  · intro hmem
    have h := (List.mem_filter.mp hmem).2
    exact absurd h (by decide)
  · have h1 : (List.filter (fun c => ! isCtrlStrip c)
          (sub1Fuel s.data.length s.data)).count '\n'
        = (sub1Fuel s.data.length s.data).count '\n' := List.count_filter (by decide)
    exact h1.trans (sub1Fuel_count _ _)
  · exact (List.filter_sublist _).trans (sub1Fuel_sublist _ _)
  · exact sub1Fuel_count _ _
  · exact sub1Fuel_sublist _ _

/-- C9 counterexample: a read failure (for example a permission error) makes
contextmap.py's `parse_transcript` return the bracketed diagnostic of
line 76, which is not an empty result. -/
theorem read_failure_yields_error_string :
    parse_transcript (.failure "Permission denied" 0)
      = "[Error reading log: Permission denied]" ∧
    parse_transcript (.failure "Permission denied" 0) ≠ "" :=
  ⟨by decide, by decide⟩

/-- C9 (amended): a missing log file yields an empty result in both drafts
(contextmap.py line 68, cartographer.py line 25); a failing read, however,
yields the non-empty diagnostic string in contextmap.py (line 76) and an
uncaught exception in cartographer.py (no handler around line 27) — not an
empty result. -/
theorem parse_transcript_unreadable :
    parse_transcript .missing = "" ∧
    (∀ (e : String) (n : Nat),
      parse_transcript (.failure e n) = "[Error reading log: " ++ e ++ "]") ∧
    cart_parse_transcript .missing = .ok "" ∧
    (∀ (e : String) (n : Nat), cart_parse_transcript (.failure e n) = .error e) :=
  ⟨rfl, fun _ _ => rfl, rfl, fun _ _ => rfl⟩

/-- C10: `cleanup_old_logs` deletes only directory entries whose name ends in
".log" and whose modification time is older than the cutoff; every entry not
matching both conditions is kept.  The function is total (the handlers of
contextmap.py lines 429-430 and 435-437 swallow every error), so it never
raises. -/
theorem cleanup_deletes_only_stale_logs :
    ∀ (now days : Int) (entries : List FsEntry) (e : FsEntry),
      (e ∈ cleanupDeleted now days entries →
        endsWithLog e.name = true ∧ e.mtime < logCutoff now days) ∧
      (e ∈ entries → isStaleLog (logCutoff now days) e = false →
        e ∈ cleanup_old_logs now days entries) := by
  intro now days entries e
  constructor
  · intro h
    have h2 := (List.mem_filter.mp h).2
    simp only [isStaleLog, Bool.and_eq_true, decide_eq_true_eq] at h2
    exact h2
  · intro h1 h2
    refine List.mem_filter.mpr ⟨h1, ?_⟩
    simp [h2]

/-- Witness for the cleanup theorem on a concrete directory listing holding a
report artifact and a stale log. -/
theorem cleanup_witness :
    (endsWithLog ("a.log") = true ∧ (0 : Int) < logCutoff 1000000 1) ∧
    (⟨"report.html", 0⟩ : FsEntry) ∈
      cleanup_old_logs 1000000 1 ([⟨"report.html", 0⟩, ⟨"a.log", 0⟩]) :=
  ⟨(cleanup_deletes_only_stale_logs 1000000 1 ([⟨"report.html", 0⟩, ⟨"a.log", 0⟩])
      ⟨"a.log", 0⟩).1 (by decide),
   (cleanup_deletes_only_stale_logs 1000000 1 ([⟨"report.html", 0⟩, ⟨"a.log", 0⟩])
      ⟨"report.html", 0⟩).2 (by decide) (by decide)⟩

/-- API stub for counterexamples and witnesses: the call raises. -/
def apiStub : String → Except String String := fun _ => .error "unreachable"

/-- Engine stub for witnesses: the subprocess invocation raises. -/
def engineStub : String → EngineOutcome := fun _ => .raised "down"

/-- C2 counterexample: without credentials, cartographer.py's `main` writes
the placeholder report before ever examining the transcript (lines 131-145),
so a run with an existing but empty log file writes an output file instead of
exiting as a no-op; with the log file missing it even crashes on
`os.path.getsize` (line 140). -/
theorem no_credentials_writes_placeholder :
    cart_main false "session.log" (.content "") apiStub
      = .wrote (dummy_report "session.log" 0) ∧
    cart_main false "session.log" (.content "") apiStub ≠ .noop ∧
    cart_main false "session.log" .missing apiStub
      = .crashed "FileNotFoundError" :=
  ⟨by decide, by decide, by decide⟩

/-- C2 (amended): a missing log file or a transcript that is empty after
sanitization and compression leads to an early successful no-op that writes
nothing — in contextmap.py's `main` always (lines 466-469), and in
cartographer.py's `main` when credentials are present (lines 149-152);
without credentials cartographer.py instead writes a placeholder report
before examining the transcript, and crashes if the log file is missing. -/
theorem empty_transcript_noop :
    (∀ (log : ReadResult) (prev : Option String) (engine : String → EngineOutcome),
      (log = .missing ∨
        ∃ s, log = .content s ∧ pyStripS (smart_compress_transcript s) = "") →
      cm_main log prev engine = .noop) ∧
    (∀ (logName : String) (log : ReadResult) (api : String → Except String String),
      (log = .missing ∨ ∃ s, log = .content s ∧ pyStripS (cart_compress s) = "") →
      cart_main true logName log api = .noop) := by
  constructor
  · rintro log prev engine (rfl | ⟨s, rfl, hs⟩)
    · simp [cm_main, parse_transcript, show pyStripS ("") = "" from rfl]
    · simp [cm_main, parse_transcript, hs]
  · rintro logName log api (rfl | ⟨s, rfl, hs⟩)
    · simp [cart_main, cart_parse_transcript, show pyStripS ("") = "" from rfl]
    · simp [cart_main, cart_parse_transcript, hs]

/-- Witness for the no-op theorem at a concrete missing log file. -/
theorem empty_transcript_noop_witness :
    cm_main .missing none engineStub = .noop ∧
    cart_main true "a.log" .missing apiStub = .noop :=
  ⟨empty_transcript_noop.1 .missing none engineStub (Or.inl rfl),
   empty_transcript_noop.2 "a.log" .missing apiStub (Or.inl rfl)⟩

/-- Long noise line used against the truncation claim: over the length
threshold, not a prompt boundary, and matching a progress pattern. -/
def noiseLong : List Char := ("Downloading...").data ++ List.replicate 290 'x'

/-- C5 counterexample: a line longer than the truncation threshold that
matches a noise pattern is dropped entirely by the Compressor (contextmap.py
line 47 runs before line 51), so there is no replacement line and neither the
head nor the tail of the original line appears in the output. -/
theorem long_noise_line_dropped :
    300 < noiseLong.length ∧ isPromptLine noiseLong = false ∧
    processLineL noiseLong = none ∧
    processLineL noiseLong ≠ some (truncate300 noiseLong) :=
  ⟨by decide, by decide, by decide, by decide⟩

/-- C5 (amended): every line longer than the truncation threshold that is
neither a prompt-boundary line nor a noise line is replaced by its first 100
characters, the truncation marker, and its last 100 characters — a line of
length exactly twice the 100-character window plus the marker length, with
the original head and tail segments appearing verbatim as its head and tail
(contextmap.py lines 50-54); likewise cartographer.py lines 36-40 with a
500-character threshold, 200-character windows and a fixed marker. -/
theorem long_line_truncation :
    ∀ (line : List Char),
      (300 < line.length → isPromptLine line = false → isNoiseLine line = false →
        processLineL line = some (truncate300 line) ∧
        (truncate300 line).length = 2 * 100 + (truncMarker line.length).length ∧
        line.take 100 <+: truncate300 line ∧
        line.drop (line.length - 100) <:+ truncate300 line) ∧
      (500 < line.length →
        cartProcessLine line
          = line.take 200 ++ cartMarker ++ line.drop (line.length - 200) ∧
        (cartProcessLine line).length = 2 * 200 + cartMarker.length) := by
  intro line
  constructor
  · intro hlen hp hn
    refine ⟨by simp [processLineL, hp, hn, hlen], ?_, ?_, ?_⟩
    · show (line.take 100 ++ truncMarker line.length ++
          line.drop (line.length - 100)).length = _
      simp only [List.length_append, List.length_take, List.length_drop]
      omega
    · show line.take 100 <+: line.take 100 ++ truncMarker line.length ++
          line.drop (line.length - 100)
      rw [List.append_assoc]
      exact List.prefix_append _ _
    · exact List.suffix_append _ _
  · intro hlen
    have heq : cartProcessLine line
        = line.take 200 ++ cartMarker ++ line.drop (line.length - 200) := by
      simp [cartProcessLine, hlen]
    refine ⟨heq, ?_⟩
    rw [heq]
    simp only [List.length_append, List.length_take, List.length_drop]
    omega

/-- Plain long line (no prompt, no noise) for the truncation witness. -/
def plainLong : List Char := List.replicate 301 'a'

/-- Second long line for the cartographer half of the truncation witness. -/
def plainLong2 : List Char := List.replicate 501 'b'

/-- Witness for the truncation theorem at concrete long lines. -/
theorem long_line_truncation_witness :
    (300 < plainLong.length ∧ isPromptLine plainLong = false ∧
      isNoiseLine plainLong = false) ∧
    processLineL plainLong = some (truncate300 plainLong) ∧
    (500 < plainLong2.length ∧
      cartProcessLine plainLong2
        = plainLong2.take 200 ++ cartMarker ++ plainLong2.drop (plainLong2.length - 200)) :=
  ⟨⟨by decide, by decide, by decide⟩,
   ((long_line_truncation plainLong).1 (by decide) (by decide) (by decide)).1,
   ⟨by decide, ((long_line_truncation plainLong2).2 (by decide)).1⟩⟩

/-- Line that is both a prompt boundary and over the length threshold. -/
def longPrompt : List Char := ("> ").data ++ List.replicate 299 'a'

/-- C6 counterexample: a prompt-boundary line longer than the threshold is
emitted in full with its tag — the prompt branch of contextmap.py line 44
continues past the truncation check, so the truncated form (which would
contain the bracketed marker) never appears in the output. -/
theorem long_prompt_line_not_truncated :
    300 < longPrompt.length ∧ isPromptLine longPrompt = true ∧
    processLineL longPrompt = some (stepTag ++ longPrompt) ∧
    ¬ List.IsInfix (truncate300 longPrompt) (stepTag ++ longPrompt) := by
  refine ⟨by decide, by decide, by decide, ?_⟩
  intro hinf
  have h1 : '[' ∈ truncate300 longPrompt := by decide
  have h2 : '[' ∉ stepTag ++ longPrompt := by decide
  exact h2 (hinf.subset h1)

/-- C6 (amended): a line that is both a prompt boundary and over the length
threshold is kept whole — tagged and stripped but never truncated, because
the prompt branch of contextmap.py lines 41-44 runs before the truncation
check of line 51. -/
theorem prompt_line_kept_whole :
    ∀ (line : List Char), isPromptLine line = true → 300 < line.length →
      processLineL line = some (stepTag ++ pyStrip line) := by
  intro line hp _
  simp [processLineL, hp]

/-- Second long prompt line, for the kept-whole witness. -/
def longPrompt2 : List Char := ("> ").data ++ List.replicate 301 'b'

/-- Witness for the kept-whole theorem at a concrete long prompt line. -/
theorem prompt_line_kept_whole_witness :
    (isPromptLine longPrompt2 = true ∧ 300 < longPrompt2.length) ∧
    processLineL longPrompt2 = some (stepTag ++ pyStrip longPrompt2) :=
  ⟨⟨by decide, by decide⟩, prompt_line_kept_whole longPrompt2 (by decide) (by decide)⟩

/-- Prompt-boundary line that also contains a progress pattern. -/
def noisyPrompt : List Char := ("> Resolving... the login fix").data

/-- C7 counterexample: a line containing the "Resolving..." pattern that is
also a prompt-boundary line is tagged and kept, not dropped — the prompt
branch of contextmap.py line 41 runs before the noise check of line 47. -/
theorem prompt_noise_line_kept :
    hasSub noisePat1 noisyPrompt = true ∧
    processLineL noisyPrompt = some (stepTag ++ noisyPrompt) ∧
    processLineL noisyPrompt ≠ none :=
  ⟨by decide, by decide, by decide⟩

/-- Raw log of the concrete scenario from the spec. -/
def scenarioRaw : String := "\x1b[32m> fix login bug\x1b[0m\nResolving...\nResolving...\nDone."

/-- Expected compressed output of the concrete scenario. -/
def scenarioOut : String := "\n--- USER STEP ---\n> fix login bug\nDone."

/-- C7 (amended): every sanitized line that is not a prompt-boundary line and
contains one of the progress patterns is dropped entirely (contextmap.py
lines 47-48); on the concrete scenario the compressed output is exactly the
boundary-tagged prompt line followed by the final line, contains both, and
contains neither dropped progress line. -/
theorem noise_suppression_nonprompt :
    (∀ (line : List Char), isPromptLine line = false → isNoiseLine line = true →
      processLineL line = none) ∧
    smart_compress_transcript scenarioRaw = scenarioOut ∧
    hasSub (("\n--- USER STEP ---\n> fix login bug").data) scenarioOut.data = true ∧
    hasSub (("Done.").data) scenarioOut.data = true ∧
    hasSub (("Resolving").data) scenarioOut.data = false := by
  refine ⟨?_, by decide, by decide, by decide, by decide⟩
  intro line hp hn
  simp [processLineL, hp, hn]

/-- Non-prompt noise line for the noise-suppression witness. -/
def fetchLine : List Char := ("Fetching... 42%").data

/-- Witness for the noise-suppression theorem at a concrete progress line. -/
theorem noise_suppression_witness :
    (isPromptLine fetchLine = false ∧ isNoiseLine fetchLine = true) ∧
    processLineL fetchLine = none :=
  ⟨⟨by decide, by decide⟩,
   noise_suppression_nonprompt.1 fetchLine (by decide) (by decide)⟩

/-- C8: compaction is idempotent (archived entries are never re-expanded and
a compacted report compacts to itself), the archive only grows or stays the
same size, and merging one new session into a report holding `K + 5`
full-detail steps yields a report with exactly `K` full-detail steps and one
archive entry summarizing the excess — and compacting that report again
changes nothing.  Settled against the compaction policy modelled from the
spec (the repository only states it as instructions to the engine,
contextmap.py lines 306-318). -/
theorem compaction_idempotent_and_bounded :
    ∀ (K cap : Nat) (r prev : CumulativeReport) (newSteps : List IterationStep),
      compactReport K cap (compactReport K cap r) = compactReport K cap r ∧
      archiveSize r ≤ archiveSize (compactReport K cap r) ∧
      (prev.steps.length = K + 5 → prev.archive = none →
        (mergeSession K cap prev newSteps).steps.length = K ∧
        (mergeSession K cap prev newSteps).archive
          = some (((prev.steps ++ newSteps).take (5 + newSteps.length)).map
              (summarizeStep cap)) ∧
        compactReport K cap (mergeSession K cap prev newSteps)
          = mergeSession K cap prev newSteps) := by
  intro K cap r prev newSteps
  have idem : ∀ (q : CumulativeReport),
      compactReport K cap (compactReport K cap q) = compactReport K cap q := by
    intro q
    by_cases h : q.steps.length ≤ K
    · simp [compactReport, h]
    · have hlen : q.steps.length - (q.steps.length - K) ≤ K := by omega
      simp [compactReport, h, List.length_drop, hlen]
  refine ⟨idem r, ?_, ?_⟩
  · by_cases h : r.steps.length ≤ K
    · rw [compactReport, if_pos h]
    · rw [compactReport, if_neg h]
      show (r.archive.getD []).length ≤
        ((r.archive.getD []) ++ (r.steps.take (r.steps.length - K)).map
          (summarizeStep cap)).length
      rw [List.length_append]
      omega
  · intro h1 h2
    have hgt : ¬ (prev.steps ++ newSteps).length ≤ K := by
      rw [List.length_append, h1]
      omega
    have hsub : (prev.steps ++ newSteps).length - K = 5 + newSteps.length := by
      rw [List.length_append, h1]
      omega
    have e : mergeSession K cap prev newSteps
        = { steps := (prev.steps ++ newSteps).drop ((prev.steps ++ newSteps).length - K),
            archive := some ((prev.archive.getD []) ++
              ((prev.steps ++ newSteps).take ((prev.steps ++ newSteps).length - K)).map
                (summarizeStep cap)) } := by
      unfold mergeSession compactReport
      split
      · next h => exact absurd h hgt
      · rfl
    refine ⟨?_, ?_, idem ⟨prev.steps ++ newSteps, prev.archive⟩⟩
    · rw [e]
      show ((prev.steps ++ newSteps).drop ((prev.steps ++ newSteps).length - K)).length = K
      rw [List.length_drop, List.length_append, h1]
      omega
    · rw [e, h2]
      simp only [Option.getD_none, List.nil_append, hsub]

/-- Concrete iteration step for the compaction witness. -/
def wStep : IterationStep := ⟨"t", "i", "e", "r", "success", []⟩

/-- Previous report with seven full-detail steps for the compaction witness. -/
def wPrev : CumulativeReport := ⟨List.replicate 7 wStep, none⟩

/-- New session with one step for the compaction witness. -/
def wNew : List IterationStep := [wStep]

/-- Witness for the compaction theorem with a threshold of two, a cap of
four, a previous report of seven steps and a one-step session. -/
theorem compaction_witness :
    (wPrev.steps.length = 2 + 5 ∧ wPrev.archive = none) ∧
    (mergeSession 2 4 wPrev wNew).steps.length = 2 ∧
    (mergeSession 2 4 wPrev wNew).archive
      = some (((wPrev.steps ++ wNew).take (5 + wNew.length)).map (summarizeStep 4)) ∧
    compactReport 2 4 (mergeSession 2 4 wPrev wNew) = mergeSession 2 4 wPrev wNew :=
  ⟨⟨by decide, rfl⟩,
   (compaction_idempotent_and_bounded 2 4 wPrev wPrev wNew).2.2 (by decide) rfl⟩
